import Mathlib

/-!
Verification development for the Azure custom-resource-provider adapter
(repository: davidh-cyberark/azure-custom-resource-providers).

Strings are modelled as lists of characters; the routing-header codec in
src/custom-provider/helpers.go and the safe/account handlers in
src/custom-provider/safehandlers.go and accounthandlers.go are embedded as
executable Lean functions.  External effects (environment variables, the PAM
vault client) are modelled by an oracle record, and the sequence of external
interactions performed by a handler is returned as an explicit event trace.
-/

namespace AzureCP

/-- Prepend a character to the first piece of a split result; used to embed
the recursion of splitting a string on a separator character. -/
def consHead (x : Char) : List (List Char) → List (List Char)
  | [] => [[x]]
  | h :: t => (x :: h) :: t

/-- Embedding of Go strings.Split for a single-character separator:
splitOnChar c s returns the pieces of s between occurrences of c.
As in Go, splitting the empty string yields one empty piece. -/
def splitOnChar (c : Char) : List Char → List (List Char)
  | [] => [[]]
  | x :: xs => if x = c then [] :: splitOnChar c xs else consHead x (splitOnChar c xs)

/-- Embedding of Go strings.Join for a single-character separator. -/
def joinWith (c : Char) : List (List Char) → List Char
  | [] => []
  | [p] => p
  | p :: ps => p ++ c :: joinWith c ps

/-- Drop leading occurrences of c, as the leading half of Go strings.Trim. -/
def trimLeading (c : Char) (s : List Char) : List Char := s.dropWhile (· = c)

/-- Drop trailing occurrences of c, as the trailing half of Go strings.Trim. -/
def trimTrailing (c : Char) (s : List Char) : List Char :=
  (s.reverse.dropWhile (· = c)).reverse

/-- Embedding of Go strings.Trim(s, cutset) for a single-character cutset. -/
def trimChar (c : Char) (s : List Char) : List Char := trimTrailing c (trimLeading c s)

/-- The parsed routing header, from src/custom-provider/helpers.go
(struct CustomProviderRequestPath; the FullPath field, used only inside an
error message, is not carried). -/
structure CustomProviderRequestPath where
  subscriptions : List Char
  resourceGroups : List Char
  providers : List Char
  resourceProviders : List Char
  resourceTypeName : List Char
  resourceInstanceName : List Char
deriving DecidableEq

/-- Field assignment of ParseCustomProviderHeaderRequestPath from the segment
list: segments 1, 3, 5, 7, 8, 9 in order. -/
def cpOfSegments (segs : List (List Char)) : CustomProviderRequestPath :=
  { subscriptions := segs.getD 1 []
    resourceGroups := segs.getD 3 []
    providers := segs.getD 5 []
    resourceProviders := segs.getD 7 []
    resourceTypeName := segs.getD 8 []
    resourceInstanceName := segs.getD 9 [] }

/-- Outcomes of the routing-header parse.  outOfRange models the Go runtime
panic raised by an out-of-range slice index. -/
inductive ParseOut where
  | emptyPath
  | malformedPath
  | outOfRange
  | ok (cp : CustomProviderRequestPath)
deriving DecidableEq

/-- Embedding of ParseCustomProviderHeaderRequestPath
(src/custom-provider/helpers.go, lines 169-189).  The Go code rejects an empty
header, rejects fewer than 9 segments after trimming slashes, and then reads
segments[1], [3], [5], [7], [8] and, unconditionally, segments[9]; when the
split yields exactly 9 segments that last read is out of range, which is the
outOfRange outcome here. -/
def parseCustomProviderHeaderRequestPath (s : List Char) : ParseOut :=
  if s = [] then .emptyPath
  else if (splitOnChar '/' (trimChar '/' s)).length < 9 then .malformedPath
  else if (splitOnChar '/' (trimChar '/' s)).length = 9 then .outOfRange
  else .ok (cpOfSegments (splitOnChar '/' (trimChar '/' s)))

/-- Embedding of CustomProviderRequestPath.ID (src/custom-provider/helpers.go,
lines 196-203): the canonical resource identifier, with the instance-name
segment appended only when it is non-empty. -/
def requestPathID (r : CustomProviderRequestPath) : List Char :=
  '/' :: "subscriptions".toList ++ '/' :: r.subscriptions ++
  '/' :: "resourceGroups".toList ++ '/' :: r.resourceGroups ++
  '/' :: "providers".toList ++ '/' :: r.providers ++
  '/' :: "resourceProviders".toList ++ '/' :: r.resourceProviders ++
  '/' :: r.resourceTypeName ++
  (if 0 < r.resourceInstanceName.length then '/' :: r.resourceInstanceName else [])

/-- Embedding of parseSafeNameAccountName
(src/custom-provider/accounthandlers.go, lines 46-58): split the composite
resource name on dots; fewer than two parts is an error, otherwise the safe
name is the first part and the account name is the remaining parts re-joined
with dots. -/
def parseSafeNameAccountName (s : List Char) : Except String (List Char × List Char) :=
  if (splitOnChar '.' s).length < 2 then
    .error "resource name must be in format: {safename}.{accountname}"
  else .ok ((splitOnChar '.' s).getD 0 [], joinWith '.' ((splitOnChar '.' s).drop 1))

/-- A routing-header value whose trimmed split has exactly 9 segments. -/
def c2input : List Char :=
  "/subscriptions/sub-a/resourceGroups/rg-a/providers/Microsoft.CustomProviders/resourceProviders/cp-a/safes".toList

/-- A second routing-header value with exactly 9 segments, used for C2. -/
def c2winput : List Char :=
  "/subscriptions/12345678/resourceGroups/testing-rg/providers/Microsoft.CustomProviders/resourceProviders/testingcp/cyberarkSafes".toList

/-- A fully well-formed routing-header value (correct literals, non-empty
segments) with exactly 9 segments, used for C5. -/
def c5input : List Char :=
  "/subscriptions/sub5/resourceGroups/rg5/providers/Microsoft.CustomProviders/resourceProviders/cp5/safes".toList

/-- A fully well-formed routing-header value with 10 segments, used for C5. -/
def c5winput : List Char :=
  "/subscriptions/sub10/resourceGroups/rg10/providers/Microsoft.CustomProviders/resourceProviders/cp10/safes/safe-one".toList

/-- A routing-header value with exactly 9 segments, used for C6. -/
def c6input : List Char :=
  "/subscriptions/s6/resourceGroups/g6/providers/p6/resourceProviders/c6/accounts".toList

/-- A routing-header value with exactly 9 segments, used for C2 as amended. -/
def c2ainput : List Char :=
  "/subscriptions/s2/resourceGroups/g2/providers/p2/resourceProviders/c2/accounts".toList

/-- External interactions a handler can perform, in order of occurrence:
environment-variable validation, the vault session refresh performed by
createPAMClient, the four vault operations, and the 2-second sleep of the
post-create reconciliation loop. -/
inductive Ev where
  | envCheck
  | refreshSession
  | vaultAddSafe
  | vaultGetSafeDetails
  | vaultAddAccount
  | vaultGetAccounts
  | sleep2s
deriving DecidableEq

/-- A vault account entry as seen by FindAccount: its vault ID and name. -/
structure Account where
  id : List Char
  name : List Char
deriving DecidableEq

/-- The payload of a non-nil pam.GetAccountsResponse: Count and Value. -/
structure GetAccountsValue where
  count : Nat
  value : List Account
deriving DecidableEq

/-- Result of one pamClient.GetAccounts call: transport error, HTTP status
code, and a possibly-nil response pointer. -/
structure GetAccountsVaultResult where
  err : Option String
  code : Nat
  resp : Option GetAccountsValue
deriving DecidableEq

/-- Result of one pamClient.AddAccount call: transport error, HTTP status
code, and the ID field of the create response. -/
structure AddAccountVaultResult where
  err : Option String
  code : Nat
  id : List Char
deriving DecidableEq

/-- Result of one pamClient.AddSafe call. -/
structure AddSafeVaultResult where
  err : Option String
  code : Nat
  safeURLID : List Char
deriving DecidableEq

/-- Result of one pamClient.GetSafeDetails call. -/
structure GetSafeVaultResult where
  err : Option String
  code : Nat
  safeName : List Char
  safeURLID : List Char
  description : List Char
deriving DecidableEq

/-- Oracle for everything outside the handlers: the process environment and
the vault. Per-call oracles are indexed by the number of earlier calls of the
same kind within the request, so results may differ between calls. -/
structure World where
  env : String → String
  refreshErr : Nat → Option String
  addSafe : AddSafeVaultResult
  getSafeDetails : GetSafeVaultResult
  addAccount : AddAccountVaultResult
  getAccountsVault : Nat → GetAccountsVaultResult

/-- The four environment variables required by validEnvVars
(src/custom-provider/helpers.go, lines 95-114). -/
def requiredVars : List String := ["IDTENANTURL", "PAMUSER", "PAMPASS", "PCLOUDURL"]

/-- The required variables whose value is empty. -/
def missingVars (env : String → String) : List String :=
  requiredVars.filter (fun v => env v = "")

/-- Space-separated rendering of a list of variable names, as in the Go
error message produced with a %v format verb. -/
def joinSpace : List String → String
  | [] => ""
  | [x] => x
  | x :: xs => x ++ " " ++ joinSpace xs

/-- Embedding of validEnvVars: none on success, otherwise the error text. -/
def validEnvVarsM (env : String → String) : Option String :=
  if missingVars env = [] then none
  else some ("missing required environment variables: [" ++ joinSpace (missingVars env) ++ "]")

/-- Embedding of createPAMClient (src/custom-provider/helpers.go, lines
116-144): validate the environment, then refresh the vault session (the k-th
refresh of this request); on success the PCLOUDURL value is returned, as it
is the part of the client configuration used later. -/
def createPAMClientM (w : World) (k : Nat) : Except String String × List Ev :=
  match validEnvVarsM w.env with
  | some e => (.error e, [.envCheck])
  | none =>
    match w.refreshErr k with
    | some e => (.error ("could not refresh session: " ++ e), [.envCheck, .refreshSession])
    | none => (.ok (w.env "PCLOUDURL"), [.envCheck, .refreshSession])

/-- Embedding of the GetAccounts wrapper
(src/custom-provider/accounthandlers.go, lines 176-191): create a client
(the kc-th refresh), then call the vault (the kv-th GetAccounts call).  A
returned error models the wrapper returning a nil pointer; success carries
the possibly-nil Response field. -/
def getAccountsM (w : World) (kc kv : Nat) : Except String (Option GetAccountsValue) × List Ev :=
  match createPAMClientM w kc with
  | (.error e, evs) => (.error e, evs)
  | (.ok _, evs) =>
    match (w.getAccountsVault kv).err with
    | some e =>
      (.error ("error, could not get accounts: (" ++ toString (w.getAccountsVault kv).code ++ ") " ++ e),
        evs ++ [.vaultGetAccounts])
    | none => (.ok (w.getAccountsVault kv).resp, evs ++ [.vaultGetAccounts])

/-- Embedding of FindAccount (src/custom-provider/accounthandlers.go, lines
193-224) at its reachable call sites, where the outer pointer is non-nil: a
nil Response is an error; otherwise the value list is scanned for the first
name match starting from a sentinel with ID NOTFOUND, and a zero count or no
match is an error. -/
def findAccountM (o : Option GetAccountsValue) (acctname : List Char) : Except String Account :=
  match o with
  | none => .error "ERROR: response returned nil pointer for Response property"
  | some r =>
    match r.value.find? (fun a => decide (a.name = acctname)) with
    | none => .error ("account name, " ++ acctname.asString ++ ", not found")
    | some getone =>
      if r.count = 0 ∨ getone.id = "NOTFOUND".toList then
        .error ("account name, " ++ acctname.asString ++ ", not found")
      else .ok getone

/-- Outcome of a handler step: success, a returned error, or a Go runtime
panic (crashed). -/
inductive AOut (α : Type) where
  | ok (a : α)
  | fail (msg : String)
  | crashed
deriving DecidableEq

/-- The loop break condition of the reconciliation retry
(accounthandlers.go, line 291): a non-error, non-nil result with positive
count. -/
def pollSat (o : Option GetAccountsValue) : Bool :=
  match o with
  | some r => decide (0 < r.count)
  | none => false

/-- Embedding of the retry loop of AddAccount (accounthandlers.go, lines
285-294): up to fuel iterations, each sleeping 2 seconds and polling
GetAccounts (the kc-th refresh and kv-th vault call), breaking on a
satisfied poll.  A wrapper error inside the loop leaves getresp nil and the
next logging statement dereferences it: a runtime panic, modelled as
crashed. -/
def pollLoopM (w : World) : Nat → Nat → Nat → Option GetAccountsValue →
    AOut (Option GetAccountsValue) × List Ev
  | _, _, 0, last => (.ok last, [])
  | kc, kv, fuel + 1, _ =>
    match getAccountsM w kc kv with
    | (.error _, evs) => (.crashed, .sleep2s :: evs)
    | (.ok o, evs) =>
      if pollSat o then (.ok o, .sleep2s :: evs)
      else
        ((pollLoopM w (kc + 1) (kv + 1) fuel o).1,
          .sleep2s :: evs ++ (pollLoopM w (kc + 1) (kv + 1) fuel o).2)

/-- The post-create reconciliation of AddAccount (accounthandlers.go, lines
278-294): one initial GetAccounts call (refresh index 1, vault call 0); an
error there aborts the create, otherwise the retry loop runs with 3
attempts. -/
def reconcileM (w : World) : AOut (Option GetAccountsValue) × List Ev :=
  match getAccountsM w 1 0 with
  | (.error e, evs) => (.fail e, evs)
  | (.ok o, evs) => ((pollLoopM w 2 1 3 o).1, evs ++ (pollLoopM w 2 1 3 o).2)

/-- The request body fields of an account create that the handler reads
(pam.PostAddAccountRequest SafeName and PlatformID); none models a JSON
decoding failure. -/
structure AccountRequestProps where
  safeName : List Char
  platformID : List Char
deriving DecidableEq

/-- Success payload of AddAccount: the vault ID of the create response and
the derived account resource URL. -/
structure AddAccountOk where
  respID : List Char
  url : List Char
deriving DecidableEq

/-- Embedding of AddAccount (src/custom-provider/accounthandlers.go, lines
226-309): decode and validate the body, create a client (refresh 0), call
the vault AddAccount, reject transport errors, status codes of 300 and
above, and an empty response ID, then parse the composite instance name,
run the reconciliation, and look the account up in the final poll result. -/
def addAccountM (w : World) (cp : CustomProviderRequestPath)
    (body : Option AccountRequestProps) : AOut AddAccountOk × List Ev :=
  match body with
  | none => (.fail "invalid request body", [])
  | some req =>
    if req.safeName = [] then (.fail "error, safeName is not set", [])
    else if req.platformID = [] then (.fail "error, platformId is not set", [])
    else
      match createPAMClientM w 0 with
      | (.error e, evs) => (.fail e, evs)
      | (.ok pcloudURL, evs0) =>
        match w.addAccount.err with
        | some e => (.fail ("failed to add account: " ++ e), evs0 ++ [.vaultAddAccount])
        | none =>
          if 300 ≤ w.addAccount.code then
            (.fail ("call to priv cloud returned non-success code: " ++ toString w.addAccount.code),
              evs0 ++ [.vaultAddAccount])
          else if w.addAccount.id = [] then
            (.fail "no account id was set in the response", evs0 ++ [.vaultAddAccount])
          else
            match parseSafeNameAccountName cp.resourceInstanceName with
            | .error e => (.fail e, evs0 ++ [.vaultAddAccount])
            | .ok (_, acctname) =>
              (match (reconcileM w).1 with
               | .fail e => .fail e
               | .crashed => .crashed
               | .ok last =>
                 match findAccountM last acctname with
                 | .error e => .fail e
                 | .ok _ => .ok ⟨w.addAccount.id, pcloudURL.toList ++ '/' :: w.addAccount.id⟩,
               (evs0 ++ [.vaultAddAccount]) ++ (reconcileM w).2)

/-- Response bodies the handlers produce: the discovery payload, the error
envelope, the custom-provider resource envelope, the literal
not-implemented payload of the account delete handler, and the empty body
written when a handler method switch matches nothing. -/
inductive RBody where
  | statusOk
  | errBody (code : String) (msg : String)
  | cpBody (id : List Char) (name : List Char) (ty : String) (props : List (String × String))
  | notImplementedBody
  | emptyBody
deriving DecidableEq

/-- An HTTP response, or a connection dropped by a handler panic. -/
inductive HResp where
  | resp (status : Nat) (body : RBody)
  | crashedConn
deriving DecidableEq

/-- The Type field of a custom-provider response. -/
def cpTypeString (cp : CustomProviderRequestPath) : String :=
  "Microsoft.CustomProviders/resourceProviders/" ++ cp.resourceTypeName.asString

/-- Embedding of handleCreateAccount (accounthandlers.go, lines 128-164):
an AddAccount error is a 409 AddAccountError; success marshals the create
response, injects provisioningState, and answers 201. -/
def handleCreateAccountM (w : World) (cp : CustomProviderRequestPath)
    (body : Option AccountRequestProps) : HResp × List Ev :=
  match addAccountM w cp body with
  | (.fail e, evs) => (.resp 409 (.errBody "AddAccountError" e), evs)
  | (.crashed, evs) => (.crashedConn, evs)
  | (.ok p, evs) =>
    (.resp 201 (.cpBody (requestPathID cp) cp.resourceInstanceName (cpTypeString cp)
      [("id", p.respID.asString), ("provisioningState", "Succeeded")]), evs)

/-- Embedding of handleGetAccount (accounthandlers.go, lines 61-125). -/
def handleGetAccountM (w : World) (cp : CustomProviderRequestPath) : HResp × List Ev :=
  match parseSafeNameAccountName cp.resourceInstanceName with
  | .error e => (.resp 409 (.errBody "ResourceNameMalformed" e), [])
  | .ok (_, acctname) =>
    if acctname = [] then
      (.resp 404 (.errBody "ResourceNotFound" (cp.resourceInstanceName.asString ++ " not found")), [])
    else
      match getAccountsM w 0 0 with
      | (.error e, evs) => (.resp 409 (.errBody "GetAccountsError" e), evs)
      | (.ok o, evs) =>
        match findAccountM o acctname with
        | .error e => (.resp 409 (.errBody "GetAccountsError" e), evs)
        | .ok acc =>
          (.resp 200 (.cpBody (requestPathID cp) cp.resourceInstanceName (cpTypeString cp)
            [("id", acc.id.asString), ("name", acc.name.asString),
             ("provisioningState", "Succeeded")]), evs)

/-- Embedding of handleDeleteAccount (accounthandlers.go, lines 167-174):
a fixed 400 not-implemented payload, no external call. -/
def handleDeleteAccountM : HResp × List Ev := (.resp 400 .notImplementedBody, [])

/-- The safe-create body fields (safehandlers.go SafeProperties); none
models a JSON decoding failure. -/
structure SafeRequestProps where
  safeName : List Char
  description : List Char
deriving DecidableEq

/-- Embedding of handleCreateSafe with createSafe
(src/custom-provider/safehandlers.go, lines 38-74 and 139-164). -/
def handleCreateSafeM (w : World) (cp : CustomProviderRequestPath)
    (body : Option SafeRequestProps) : HResp × List Ev :=
  match body with
  | none => (.resp 400 (.errBody "InvalidRequestBody" "Invalid request body"), [])
  | some req =>
    match createPAMClientM w 0 with
    | (.error e, evs) =>
      (.resp 500 (.errBody "PAMClientError" ("Failed to create PAM client: " ++ e)), evs)
    | (.ok _, evs) =>
      match w.addSafe.err with
      | some e =>
        (.resp 500 (.errBody "SafeCreationError" ("Failed to create safe: failed to add safe: " ++ e)),
          evs ++ [.vaultAddSafe])
      | none =>
        if 300 ≤ w.addSafe.code then
          (.resp 500 (.errBody "SafeCreationError"
            ("Failed to create safe: PAM API returned status " ++ toString w.addSafe.code ++ " when creating safe")),
            evs ++ [.vaultAddSafe])
        else
          (.resp 201 (.cpBody (requestPathID cp) cp.resourceInstanceName (cpTypeString cp)
            [("safeName", req.safeName.asString), ("safeID", w.addSafe.safeURLID.asString),
             ("description", req.description.asString), ("provisioningState", "Succeeded")]),
            evs ++ [.vaultAddSafe])

/-- Embedding of handleDeleteSafe with deleteSafe
(src/custom-provider/safehandlers.go, lines 77-94 and 167-174): a client is
created first; if that fails the response is a 500 PAMClientError, otherwise
deleteSafe always returns its not-implemented error and the response is a
500 SafeDeletionError.  No vault delete operation exists or is invoked. -/
def handleDeleteSafeM (w : World) : HResp × List Ev :=
  match createPAMClientM w 0 with
  | (.error e, evs) =>
    (.resp 500 (.errBody "PAMClientError" ("Failed to create PAM client: " ++ e)), evs)
  | (.ok _, evs) =>
    (.resp 500 (.errBody "SafeDeletionError"
      ("Failed to delete safe: delete safe functionality not implemented in current SDK version")), evs)

/-- Embedding of handleGetSafe (src/custom-provider/safehandlers.go, lines
97-136). -/
def handleGetSafeM (w : World) (cp : CustomProviderRequestPath) : HResp × List Ev :=
  match createPAMClientM w 0 with
  | (.error e, evs) =>
    (.resp 500 (.errBody "PAMClientError" ("Failed to create PAM client: " ++ e)), evs)
  | (.ok _, evs) =>
    match w.getSafeDetails.err with
    | some e =>
      (.resp w.getSafeDetails.code (.errBody "GetSafeDetailsError" ("Failed to get safe: " ++ e)),
        evs ++ [.vaultGetSafeDetails])
    | none =>
      if w.getSafeDetails.code = 404 then
        (.resp 404 (.errBody "SafeNotFound" ("Safe not found: " ++ cp.resourceInstanceName.asString)),
          evs ++ [.vaultGetSafeDetails])
      else if 300 ≤ w.getSafeDetails.code then
        (.resp w.getSafeDetails.code (.errBody "GetSafeDetailsError" "Get safe operation returned non-success"),
          evs ++ [.vaultGetSafeDetails])
      else
        (.resp 200 (.cpBody (requestPathID cp) cp.resourceInstanceName (cpTypeString cp)
          [("safeName", w.getSafeDetails.safeName.asString),
           ("safeID", w.getSafeDetails.safeURLID.asString),
           ("description", w.getSafeDetails.description.asString),
           ("provisioningState", "Succeeded")]), evs ++ [.vaultGetSafeDetails])

/-- Embedding of handleSafe (safehandlers.go, lines 24-35).  A method other
than PUT, DELETE or GET matches no switch case and the handler writes
nothing, which the HTTP layer turns into an empty 200 response. -/
def handleSafeM (w : World) (method : String) (cp : CustomProviderRequestPath)
    (body : Option SafeRequestProps) : HResp × List Ev :=
  match method with
  | "PUT" => handleCreateSafeM w cp body
  | "DELETE" => handleDeleteSafeM w
  | "GET" => handleGetSafeM w cp
  | _ => (.resp 200 .emptyBody, [])

/-- Embedding of handleAccount (accounthandlers.go, lines 32-44). -/
def handleAccountM (w : World) (method : String) (cp : CustomProviderRequestPath)
    (body : Option AccountRequestProps) : HResp × List Ev :=
  match method with
  | "GET" => handleGetAccountM w cp
  | "PUT" => handleCreateAccountM w cp body
  | "DELETE" => handleDeleteAccountM
  | _ => (.resp 200 .emptyBody, [])

/-- An inbound HTTP request: method, URL path, the value of the
X-Ms-Customproviders-Requestpath header (empty means absent), and the
request body decoded against each of the two body shapes. -/
structure HttpReq where
  method : String
  path : String
  header : List Char
  safeBody : Option SafeRequestProps
  acctBody : Option AccountRequestProps

/-- Embedding of handleCatchAll (main, part of src/unnamed/part_000). -/
def handleCatchAllM (r : HttpReq) : HResp × List Ev :=
  (.resp 404 (.errBody "EndpointNotFound" ("Endpoint " ++ r.path ++ " not found")), [])

/-- Embedding of handleGetRoot (src/unnamed/part_005): a GET of the root
path answers the discovery payload, anything else falls through to the
catch-all. -/
def handleGetRootM (r : HttpReq) : HResp × List Ev :=
  if r.method = "GET" ∧ r.path = "/" then (.resp 200 .statusOk, [])
  else handleCatchAllM r

/-- Embedding of handleRootRequest (src/unnamed/part_000, lines 292-321):
with the routing header present, parse it (parse failure answers 400
BadRequestPath; the out-of-range access of a 9-segment header crashes) and
dispatch on the resource type name; without the header, GET goes to the
discovery handler and other methods to the catch-all. -/
def handleRootRequestM (w : World) (r : HttpReq) : HResp × List Ev :=
  if r.header ≠ [] then
    match parseCustomProviderHeaderRequestPath r.header with
    | .emptyPath =>
      (.resp 400 (.errBody "BadRequestPath"
        "Invalid header, X-Ms-Customproviders-Requestpath: empty request path"), [])
    | .malformedPath =>
      (.resp 400 (.errBody "BadRequestPath"
        ("Invalid header, X-Ms-Customproviders-Requestpath: invalid request path, expecting 9 or 10 segments, "
          ++ r.header.asString)), [])
    | .outOfRange => (.crashedConn, [])
    | .ok cp =>
      if cp.resourceTypeName = "safes".toList then handleSafeM w r.method cp r.safeBody
      else if cp.resourceTypeName = "accounts".toList then handleAccountM w r.method cp r.acctBody
      else
        (.resp 405 (.errBody "MethodNotAllowed"
          ("Action " ++ cp.resourceTypeName.asString ++ " is not supported")), [])
  else
    match r.method with
    | "GET" => handleGetRootM r
    | _ => handleCatchAllM r

/-- Whether the i-th vault GetAccounts result of a request is non-empty
(non-nil response with positive count). -/
def pollNE (w : World) (i : Nat) : Bool := pollSat (w.getAccountsVault i).resp

/-- The number of delayed retry polls the reconciliation loop performs when
no retry errs: the first retry always runs; later retries run only while
the previous retry was empty, up to 3. -/
def retryCount (w : World) : Nat :=
  if pollNE w 1 then 1 else if pollNE w 2 then 2 else 3

/-- Whether createPAMClient succeeds for a world (first refresh). -/
def pamClientOk (w : World) : Bool :=
  match (createPAMClientM w 0).1 with
  | .ok _ => true
  | .error _ => false

/-- An environment with every required variable set. -/
def envAll : String → String := fun _ => "pc.example"

/-- An environment with every required variable empty. -/
def envNone : String → String := fun _ => ""

/-- The routed address of an account instance named safe1.acct1. -/
def cpAccounts : CustomProviderRequestPath :=
  ⟨"sub1".toList, "rg1".toList, "Microsoft.CustomProviders".toList, "cp1".toList,
    "accounts".toList, "safe1.acct1".toList⟩

/-- The routed address of an account whose instance name has no dot. -/
def cpNoDot : CustomProviderRequestPath :=
  ⟨"sub1".toList, "rg1".toList, "Microsoft.CustomProviders".toList, "cp1".toList,
    "accounts".toList, "safeonly".toList⟩

/-- A well-formed account-create body. -/
def reqAcct : AccountRequestProps := ⟨"safe1".toList, "plat1".toList⟩

/-- C1 scenario: the vault create succeeds with an ID, and every GetAccounts
poll returns an empty (count 0) result set. -/
def c1world : World :=
  { env := envAll
    refreshErr := fun _ => none
    addSafe := ⟨none, 201, "s-1".toList⟩
    getSafeDetails := ⟨none, 200, [], [], []⟩
    addAccount := ⟨none, 201, "123_45".toList⟩
    getAccountsVault := fun _ => ⟨none, 200, some ⟨0, []⟩⟩ }

/-- C3 scenario: the vault create succeeds and every GetAccounts poll,
including the initial one, already returns a non-empty result set holding
the created account. -/
def c3world : World :=
  { env := envAll
    refreshErr := fun _ => none
    addSafe := ⟨none, 201, "s-1".toList⟩
    getSafeDetails := ⟨none, 200, [], [], []⟩
    addAccount := ⟨none, 201, "123_45".toList⟩
    getAccountsVault := fun _ => ⟨none, 200, some ⟨1, [⟨"77_7".toList, "acct1".toList⟩]⟩⟩ }

/-- C4 scenario: the vault create reports success (no error, status 200)
but its response carries no account ID. -/
def c4world : World :=
  { env := envAll
    refreshErr := fun _ => none
    addSafe := ⟨none, 201, "s-1".toList⟩
    getSafeDetails := ⟨none, 200, [], [], []⟩
    addAccount := ⟨none, 200, []⟩
    getAccountsVault := fun _ => ⟨none, 200, some ⟨1, [⟨"77_7".toList, "acct1".toList⟩]⟩⟩ }

/-- C10 scenario: a healthy environment and a successful vault create. -/
def c10world : World :=
  { env := envAll
    refreshErr := fun _ => none
    addSafe := ⟨none, 201, "s-1".toList⟩
    getSafeDetails := ⟨none, 200, [], [], []⟩
    addAccount := ⟨none, 201, "88_9".toList⟩
    getAccountsVault := fun _ => ⟨none, 200, some ⟨0, []⟩⟩ }

/-- A world whose environment is entirely unset and whose vault is down. -/
def w9bad : World :=
  { env := envNone
    refreshErr := fun _ => some "dial tcp: connection refused"
    addSafe := ⟨some "down", 500, []⟩
    getSafeDetails := ⟨some "down", 500, [], [], []⟩
    addAccount := ⟨some "down", 500, []⟩
    getAccountsVault := fun _ => ⟨some "down", 500, none⟩ }

/-- A healthy world for the safe-delete witness. -/
def w9ok : World :=
  { env := envAll
    refreshErr := fun _ => none
    addSafe := ⟨none, 201, "s-1".toList⟩
    getSafeDetails := ⟨none, 200, [], [], []⟩
    addAccount := ⟨none, 201, "1_2".toList⟩
    getAccountsVault := fun _ => ⟨none, 200, some ⟨0, []⟩⟩ }

/-- A bare GET of the root path without the routing header. -/
def rootReq : HttpReq := ⟨"GET", "/", [], none, none⟩

theorem consHead_ne_nil (x : Char) (l : List (List Char)) : consHead x l ≠ [] := by
  cases l <;> simp [consHead]

theorem splitOnChar_ne_nil (c : Char) (s : List Char) : splitOnChar c s ≠ [] := by
  induction s with
  | nil => simp [splitOnChar]
  | cons x xs ih =>
    by_cases hx : x = c <;> simp [splitOnChar, hx, consHead_ne_nil]

theorem splitOnChar_of_not_mem (c : Char) (s : List Char) (h : c ∉ s) :
    splitOnChar c s = [s] := by
  induction s with
  | nil => rfl
  | cons x xs ih =>
    have hx : x ≠ c := by
      intro hxc; exact h (hxc ▸ List.mem_cons_self x xs)
    have hxs : c ∉ xs := fun hm => h (List.mem_cons_of_mem x hm)
    simp [splitOnChar, hx, ih hxs, consHead]

theorem splitOnChar_append_sep (c : Char) (a b : List Char) (h : c ∉ a) :
    splitOnChar c (a ++ c :: b) = a :: splitOnChar c b := by
  induction a with
  | nil => simp [splitOnChar]
  | cons x a' ih =>
    have hx : x ≠ c := by
      intro hxc; exact h (hxc ▸ List.mem_cons_self x a')
    have ha : c ∉ a' := fun hm => h (List.mem_cons_of_mem x hm)
    simp [splitOnChar, hx, ih ha, consHead]

theorem not_mem_of_mem_splitOnChar (c : Char) (s : List Char) :
    ∀ p ∈ splitOnChar c s, c ∉ p := by
  induction s with
  | nil =>
    intro p hp
    simp [splitOnChar] at hp
    simp [hp]
  | cons x xs ih =>
    intro p hp
    by_cases hx : x = c
    · simp [splitOnChar, hx] at hp
      rcases hp with hp | hp
      · simp [hp]
      · exact ih p hp
    · simp only [splitOnChar, if_neg hx] at hp
      rcases hsplit : splitOnChar c xs with _ | ⟨h0, t⟩
      · exact absurd hsplit (splitOnChar_ne_nil c xs)
      · rw [hsplit] at hp
        simp [consHead] at hp
        rcases hp with hp | hp
        · subst hp
          intro hmem
          rcases List.mem_cons.mp hmem with hc | hc
          · exact hx hc.symm
          · exact ih h0 (hsplit ▸ List.mem_cons_self h0 t) hc
        · exact ih p (hsplit ▸ List.mem_cons_of_mem h0 hp)

theorem joinWith_consHead (c x : Char) (l : List (List Char)) (hl : l ≠ []) :
    joinWith c (consHead x l) = x :: joinWith c l := by
  rcases l with _ | ⟨h, t⟩
  · exact absurd rfl hl
  · rcases t with _ | ⟨q, t'⟩ <;> simp [consHead, joinWith]

theorem joinWith_splitOnChar (c : Char) (s : List Char) :
    joinWith c (splitOnChar c s) = s := by
  induction s with
  | nil => rfl
  | cons x xs ih =>
    by_cases hx : x = c
    · rcases hsplit : splitOnChar c xs with _ | ⟨h0, t⟩
      · exact absurd hsplit (splitOnChar_ne_nil c xs)
      · subst hx
        rw [hsplit] at ih
        simp [splitOnChar, hsplit, joinWith, ih]
    · rw [splitOnChar, if_neg hx,
        joinWith_consHead c x (splitOnChar c xs) (splitOnChar_ne_nil c xs), ih]

theorem head?_append_left {α : Type} (a b : List α) (h : a ≠ []) :
    (a ++ b).head? = a.head? := by
  cases a
  · exact absurd rfl h
  · rfl

theorem trimLeading_eq_self (c : Char) (s : List Char) (h : s.head? ≠ some c) :
    trimLeading c s = s := by
  cases s with
  | nil => rfl
  | cons x xs =>
    have hx : ¬ x = c := by
      intro hxc; exact h (by simp [hxc])
    simp [trimLeading, hx]

theorem trimTrailing_eq_self (c : Char) (s : List Char) (h : s.reverse.head? ≠ some c) :
    trimTrailing c s = s := by
  have hl := trimLeading_eq_self c s.reverse h
  unfold trimLeading at hl
  unfold trimTrailing
  rw [hl, List.reverse_reverse]

theorem trimChar_eq_self (c : Char) (s : List Char) (h1 : s.head? ≠ some c)
    (h2 : s.reverse.head? ≠ some c) : trimChar c s = s := by
  unfold trimChar
  rw [trimLeading_eq_self c s h1, trimTrailing_eq_self c s h2]

theorem trimChar_cons_sep (c : Char) (s : List Char) :
    trimChar c (c :: s) = trimChar c s := by
  unfold trimChar trimLeading
  simp

/-- The decomposition of a string at its first dot. -/
theorem first_sep_decomp (c : Char) (s : List Char) (h : c ∈ s) :
    s = s.takeWhile (· ≠ c) ++ c :: (s.dropWhile (· ≠ c)).tail ∧
      c ∉ s.takeWhile (· ≠ c) := by
  induction s with
  | nil => cases h
  | cons x xs ih =>
    by_cases hx : x = c
    · subst hx
      constructor
      · simp [List.takeWhile, List.dropWhile]
      · simp [List.takeWhile]
    · have hxs : c ∈ xs := by
        rcases List.mem_cons.mp h with h0 | h0
        · exact absurd h0.symm hx
        · exact h0
      obtain ⟨ihl, ihr⟩ := ih hxs
      have hxne : (fun y => decide (y ≠ c)) x = true := by
        simp [hx]
      constructor
      · conv_lhs => rw [ihl]
        simp [List.takeWhile, List.dropWhile, hx]
      · intro hmem
        rw [List.takeWhile] at hmem
        simp only [hxne] at hmem
        rcases List.mem_cons.mp hmem with h0 | h0
        · exact hx h0.symm
        · exact ihr h0

theorem parseSafeNameAccountName_of_mem (s : List Char) (h : '.' ∈ s) :
    parseSafeNameAccountName s =
      .ok (s.takeWhile (· ≠ '.'), (s.dropWhile (· ≠ '.')).tail) := by
  obtain ⟨hdec, hnm⟩ := first_sep_decomp '.' s h
  have hsplit : splitOnChar '.' s =
      s.takeWhile (· ≠ '.') :: splitOnChar '.' ((s.dropWhile (· ≠ '.')).tail) := by
    conv_lhs => rw [hdec]
    exact splitOnChar_append_sep '.' _ _ hnm
  have hlen : ¬ (splitOnChar '.' s).length < 2 := by
    rw [hsplit]
    rcases hsp : splitOnChar '.' ((s.dropWhile (· ≠ '.')).tail) with _ | ⟨h0, t⟩
    · exact absurd hsp (splitOnChar_ne_nil _ _)
    · simp
  unfold parseSafeNameAccountName
  rw [if_neg hlen, hsplit]
  simp only [List.getD, List.drop_one]
  rw [List.tail_cons]
  rw [joinWith_splitOnChar]
  rfl

theorem parseSafeNameAccountName_of_not_mem (s : List Char) (h : '.' ∉ s) :
    parseSafeNameAccountName s =
      .error "resource name must be in format: {safename}.{accountname}" := by
  unfold parseSafeNameAccountName
  rw [splitOnChar_of_not_mem '.' s h]
  simp

theorem reverse_head?_append {α : Type} (a b : List α) (hb : b ≠ []) :
    (a ++ b).reverse.head? = b.reverse.head? := by
  rw [List.reverse_append]
  exact head?_append_left _ _ (by simpa using hb)

/-- Splitting the trimmed encoded identifier of a request path whose fields
are free of slashes and whose instance name is non-empty yields exactly the
ten segments in order. -/
theorem split_trim_requestPathID (r : CustomProviderRequestPath)
    (h1 : '/' ∉ r.subscriptions) (h2 : '/' ∉ r.resourceGroups)
    (h3 : '/' ∉ r.providers) (h4 : '/' ∉ r.resourceProviders)
    (h5 : '/' ∉ r.resourceTypeName) (h6 : '/' ∉ r.resourceInstanceName)
    (hi : r.resourceInstanceName ≠ []) :
    splitOnChar '/' (trimChar '/' (requestPathID r)) =
      ["subscriptions".toList, r.subscriptions, "resourceGroups".toList, r.resourceGroups,
       "providers".toList, r.providers, "resourceProviders".toList, r.resourceProviders,
       r.resourceTypeName, r.resourceInstanceName] := by
  have hlen : 0 < r.resourceInstanceName.length := List.length_pos.mpr hi
  have hid : requestPathID r =
      '/' :: ("subscriptions".toList ++ '/' :: (r.subscriptions ++
        '/' :: ("resourceGroups".toList ++ '/' :: (r.resourceGroups ++
        '/' :: ("providers".toList ++ '/' :: (r.providers ++
        '/' :: ("resourceProviders".toList ++ '/' :: (r.resourceProviders ++
        '/' :: (r.resourceTypeName ++ '/' :: r.resourceInstanceName))))))))) := by
    unfold requestPathID
    rw [if_pos hlen]
    simp
  rw [hid, trimChar_cons_sep]
  rw [trimChar_eq_self]
  · rw [splitOnChar_append_sep '/' _ _ (by decide)]
    rw [splitOnChar_append_sep '/' _ _ h1]
    rw [splitOnChar_append_sep '/' _ _ (by decide)]
    rw [splitOnChar_append_sep '/' _ _ h2]
    rw [splitOnChar_append_sep '/' _ _ (by decide)]
    rw [splitOnChar_append_sep '/' _ _ h3]
    rw [splitOnChar_append_sep '/' _ _ (by decide)]
    rw [splitOnChar_append_sep '/' _ _ h4]
    rw [splitOnChar_append_sep '/' _ _ h5]
    rw [splitOnChar_of_not_mem '/' _ h6]
  · rw [head?_append_left _ _ (by decide)]
    decide
  · have hT : "subscriptions".toList ++ '/' :: (r.subscriptions ++
        '/' :: ("resourceGroups".toList ++ '/' :: (r.resourceGroups ++
        '/' :: ("providers".toList ++ '/' :: (r.providers ++
        '/' :: ("resourceProviders".toList ++ '/' :: (r.resourceProviders ++
        '/' :: (r.resourceTypeName ++ '/' :: r.resourceInstanceName)))))))) =
        ("subscriptions".toList ++ '/' :: r.subscriptions ++
          '/' :: "resourceGroups".toList ++ '/' :: r.resourceGroups ++
          '/' :: "providers".toList ++ '/' :: r.providers ++
          '/' :: "resourceProviders".toList ++ '/' :: r.resourceProviders ++
          '/' :: r.resourceTypeName ++ ['/']) ++ r.resourceInstanceName := by
      simp
    rw [hT, reverse_head?_append _ _ hi]
    rcases hrev : r.resourceInstanceName.reverse with _ | ⟨y, ys⟩
    · exact absurd (List.reverse_eq_nil_iff.mp hrev) hi
    · have hy : y ∈ r.resourceInstanceName := by
        rw [← List.mem_reverse, hrev]
        exact List.mem_cons_self y ys
      have : y ≠ '/' := fun hc => h6 (hc ▸ hy)
      simp [this]

/-- C2 (counterexample): on a concrete header whose trimmed split has exactly
9 segments, the parse neither succeeds nor returns an error: it reads
segments[9] out of range (a runtime panic), so it does not return a
ResourceAddress with an empty instance name as the claim states. -/
theorem c2_counterexample :
    (splitOnChar '/' (trimChar '/' c2input)).length = 9 ∧
    parseCustomProviderHeaderRequestPath c2input = ParseOut.outOfRange := by
  constructor
  · decide
  · decide

/-- C2 (amended): for every non-empty routing-header value whose trimmed
slash-split yields exactly 9 segments, the parse performs an out-of-range
segment access (the Go code reads segments[9] unconditionally), returning
neither a parsed address nor an error. -/
theorem c2_exactly_nine_segments_out_of_range (s : List Char)
    (hne : s ≠ []) (h9 : (splitOnChar '/' (trimChar '/' s)).length = 9) :
    parseCustomProviderHeaderRequestPath s = ParseOut.outOfRange := by
  unfold parseCustomProviderHeaderRequestPath
  rw [if_neg hne, if_neg (by omega), if_pos h9]

/-- C2 witness: the amended statement applied at a concrete 9-segment header. -/
theorem c2_witness :
    parseCustomProviderHeaderRequestPath c2ainput = ParseOut.outOfRange :=
  c2_exactly_nine_segments_out_of_range c2ainput (by decide) (by decide)

/-- C6 (counterexample): a concrete non-empty header with exactly 9 segments
is a failure of the parse (an out-of-range access) that is neither the
empty-path error nor the malformed-path error, so the parse does not fail
only in the two cases the claim lists. -/
theorem c6_counterexample :
    c6input ≠ [] ∧
    parseCustomProviderHeaderRequestPath c6input = ParseOut.outOfRange := by
  constructor
  · decide
  · decide

/-- C6 (amended): complete characterization of the parse outcomes — EmptyPath
exactly on the empty header, MalformedPath exactly on a non-empty header with
fewer than 9 trimmed segments, an out-of-range access exactly on a non-empty
header with exactly 9 segments, and success exactly on a non-empty header
with at least 10 segments. -/
theorem c6_parse_outcome_characterization (s : List Char) :
    (parseCustomProviderHeaderRequestPath s = ParseOut.emptyPath ↔ s = []) ∧
    (parseCustomProviderHeaderRequestPath s = ParseOut.malformedPath ↔
      s ≠ [] ∧ (splitOnChar '/' (trimChar '/' s)).length < 9) ∧
    (parseCustomProviderHeaderRequestPath s = ParseOut.outOfRange ↔
      s ≠ [] ∧ (splitOnChar '/' (trimChar '/' s)).length = 9) ∧
    ((∃ cp, parseCustomProviderHeaderRequestPath s = ParseOut.ok cp) ↔
      s ≠ [] ∧ 10 ≤ (splitOnChar '/' (trimChar '/' s)).length) := by
  unfold parseCustomProviderHeaderRequestPath
  by_cases hs : s = []
  · simp [hs]
  · by_cases hlt : (splitOnChar '/' (trimChar '/' s)).length < 9
    · simp only [if_neg hs, if_pos hlt]
      refine ⟨by simp [hs], by simp [hs, hlt], by simp; omega, by simp; omega⟩
    · by_cases heq : (splitOnChar '/' (trimChar '/' s)).length = 9
      · simp only [if_neg hs, if_neg hlt, if_pos heq]
        refine ⟨by simp [hs], by simp; omega, by simp [hs, heq], by simp; omega⟩
      · simp only [if_neg hs, if_neg hlt, if_neg heq]
        refine ⟨by simp [hs], by simp; omega, by simp; omega, ?_⟩
        simp only [ParseOut.ok.injEq, exists_eq]
        constructor
        · intro _; exact ⟨hs, by omega⟩
        · intro _; exact ⟨_, rfl⟩

/-- C5 (counterexample): a concrete fully well-formed header (correct fixed
literals, non-empty segments) with exactly 9 segments: the decode does not
succeed (it performs an out-of-range access), so decode-then-encode does not
round-trip the first 9 segments as the claim states for headers with at
least 9 segments. -/
theorem c5_counterexample :
    (splitOnChar '/' (trimChar '/' c5input)).length = 9 ∧
    (splitOnChar '/' (trimChar '/' c5input)).getD 0 [] = "subscriptions".toList ∧
    (splitOnChar '/' (trimChar '/' c5input)).getD 2 [] = "resourceGroups".toList ∧
    (splitOnChar '/' (trimChar '/' c5input)).getD 4 [] = "providers".toList ∧
    (splitOnChar '/' (trimChar '/' c5input)).getD 6 [] = "resourceProviders".toList ∧
    parseCustomProviderHeaderRequestPath c5input = ParseOut.outOfRange := by
  refine ⟨by decide, by decide, by decide, by decide, by decide, by decide⟩

/-- C5 (amended): for every routing-header value whose trimmed slash-split
yields at least 10 segments, carries the four fixed path literals in their
positions, and has a non-empty 10th segment, the decode succeeds and encoding
the decoded address reproduces exactly the first 10 segments. -/
theorem c5_decode_encode_roundtrip (s : List Char)
    (h10 : 10 ≤ (splitOnChar '/' (trimChar '/' s)).length)
    (h0 : (splitOnChar '/' (trimChar '/' s)).getD 0 [] = "subscriptions".toList)
    (h2 : (splitOnChar '/' (trimChar '/' s)).getD 2 [] = "resourceGroups".toList)
    (h4 : (splitOnChar '/' (trimChar '/' s)).getD 4 [] = "providers".toList)
    (h6 : (splitOnChar '/' (trimChar '/' s)).getD 6 [] = "resourceProviders".toList)
    (h9 : (splitOnChar '/' (trimChar '/' s)).getD 9 [] ≠ []) :
    parseCustomProviderHeaderRequestPath s =
      ParseOut.ok (cpOfSegments (splitOnChar '/' (trimChar '/' s))) ∧
    splitOnChar '/' (trimChar '/'
        (requestPathID (cpOfSegments (splitOnChar '/' (trimChar '/' s))))) =
      [(splitOnChar '/' (trimChar '/' s)).getD 0 [],
       (splitOnChar '/' (trimChar '/' s)).getD 1 [],
       (splitOnChar '/' (trimChar '/' s)).getD 2 [],
       (splitOnChar '/' (trimChar '/' s)).getD 3 [],
       (splitOnChar '/' (trimChar '/' s)).getD 4 [],
       (splitOnChar '/' (trimChar '/' s)).getD 5 [],
       (splitOnChar '/' (trimChar '/' s)).getD 6 [],
       (splitOnChar '/' (trimChar '/' s)).getD 7 [],
       (splitOnChar '/' (trimChar '/' s)).getD 8 [],
       (splitOnChar '/' (trimChar '/' s)).getD 9 []] := by
  have hne : s ≠ [] := fun h => absurd (h ▸ h10) (by decide)
  have hmem : ∀ i, i < (splitOnChar '/' (trimChar '/' s)).length →
      '/' ∉ (splitOnChar '/' (trimChar '/' s)).getD i [] := by
    intro i hi
    rw [List.getD_eq_getElem _ _ hi]
    exact not_mem_of_mem_splitOnChar '/' _ _ (List.getElem_mem hi)
  constructor
  · unfold parseCustomProviderHeaderRequestPath
    rw [if_neg hne, if_neg (by omega), if_neg (by omega)]
  · rw [h0, h2, h4, h6]
    exact split_trim_requestPathID (cpOfSegments (splitOnChar '/' (trimChar '/' s)))
      (hmem 1 (by omega)) (hmem 3 (by omega)) (hmem 5 (by omega))
      (hmem 7 (by omega)) (hmem 8 (by omega)) (hmem 9 (by omega)) h9

/-- C5 witness: the amended statement applied at a concrete well-formed
10-segment header. -/
theorem c5_witness :
    parseCustomProviderHeaderRequestPath c5winput =
      ParseOut.ok (cpOfSegments (splitOnChar '/' (trimChar '/' c5winput))) ∧
    splitOnChar '/' (trimChar '/'
        (requestPathID (cpOfSegments (splitOnChar '/' (trimChar '/' c5winput))))) =
      [(splitOnChar '/' (trimChar '/' c5winput)).getD 0 [],
       (splitOnChar '/' (trimChar '/' c5winput)).getD 1 [],
       (splitOnChar '/' (trimChar '/' c5winput)).getD 2 [],
       (splitOnChar '/' (trimChar '/' c5winput)).getD 3 [],
       (splitOnChar '/' (trimChar '/' c5winput)).getD 4 [],
       (splitOnChar '/' (trimChar '/' c5winput)).getD 5 [],
       (splitOnChar '/' (trimChar '/' c5winput)).getD 6 [],
       (splitOnChar '/' (trimChar '/' c5winput)).getD 7 [],
       (splitOnChar '/' (trimChar '/' c5winput)).getD 8 [],
       (splitOnChar '/' (trimChar '/' c5winput)).getD 9 []] :=
  c5_decode_encode_roundtrip c5winput (by decide) (by decide) (by decide)
    (by decide) (by decide) (by decide)

/-- C7: splitting a composite resource instance name that contains a dot
yields the prefix before the first dot as the safe name and the full
remainder after the first dot (later dots preserved) as the account name;
a name without a dot is rejected. -/
theorem c7_split_first_dot (s : List Char) :
    ('.' ∈ s → parseSafeNameAccountName s =
      .ok (s.takeWhile (· ≠ '.'), (s.dropWhile (· ≠ '.')).tail)) ∧
    ('.' ∉ s → parseSafeNameAccountName s =
      .error "resource name must be in format: {safename}.{accountname}") :=
  ⟨parseSafeNameAccountName_of_mem s, parseSafeNameAccountName_of_not_mem s⟩

/-- C7 witness: the statement applied at the specification examples. -/
theorem c7_witness :
    parseSafeNameAccountName "safe1.acct1".toList =
      .ok ("safe1".toList, "acct1".toList) ∧
    parseSafeNameAccountName "safe1.acct.with.dots".toList =
      .ok ("safe1".toList, "acct.with.dots".toList) ∧
    parseSafeNameAccountName "safe1".toList =
      .error "resource name must be in format: {safename}.{accountname}" := by
  refine ⟨?_, ?_, (c7_split_first_dot "safe1".toList).2 (by decide)⟩
  · have h := (c7_split_first_dot "safe1.acct1".toList).1 (by decide)
    exact h.trans (congrArg Except.ok (by decide))
  · have h := (c7_split_first_dot "safe1.acct.with.dots".toList).1 (by decide)
    exact h.trans (congrArg Except.ok (by decide))

/-- C8: a GET of the root path without the routing header answers 200 with
the discovery payload for every world, with an empty external-interaction
trace: the response is independent of environment-variable and vault state,
and no environment validation or vault call occurs. -/
theorem c8_root_discovery_independent (w : World) (r : HttpReq)
    (hm : r.method = "GET") (hp : r.path = "/") (hh : r.header = []) :
    handleRootRequestM w r = (.resp 200 .statusOk, []) := by
  unfold handleRootRequestM
  rw [if_neg (by simp [hh])]
  rw [hm]
  unfold handleGetRootM
  rw [if_pos ⟨hm, hp⟩]
  rfl

/-- C8 witness: the statement applied at the concrete discovery request and
a world with no environment variables and a failing vault. -/
theorem c8_witness : handleRootRequestM w9bad rootReq = (.resp 200 .statusOk, []) :=
  c8_root_discovery_independent w9bad rootReq rfl rfl rfl

/-- C9 (counterexample): with the required environment variables unset, a
DELETE handled by the safe handler fails with PAMClientError, not with the
SafeDeletionError code the claim requires in every case. -/
theorem c9_counterexample :
    (handleDeleteSafeM w9bad).1 =
      .resp 500 (.errBody "PAMClientError"
        "Failed to create PAM client: missing required environment variables: [IDTENANTURL PAMUSER PAMPASS PCLOUDURL]") ∧
    (handleDeleteSafeM w9bad).1 ≠
      .resp 500 (.errBody "SafeDeletionError"
        "Failed to delete safe: delete safe functionality not implemented in current SDK version") := by
  constructor
  · decide
  · decide

/-- C9 (amended): a DELETE handled by the safe handler always fails with a
500 and never performs any vault operation beyond the session refresh of
client construction; the error code is SafeDeletionError whenever the PAM
client is constructed successfully, and PAMClientError otherwise. -/
theorem c9_delete_safe_always_fails (w : World) :
    (∀ e ∈ (handleDeleteSafeM w).2, e = Ev.envCheck ∨ e = Ev.refreshSession) ∧
    ((handleDeleteSafeM w).1 =
        .resp 500 (.errBody "SafeDeletionError"
          "Failed to delete safe: delete safe functionality not implemented in current SDK version") ∨
      ∃ m, (handleDeleteSafeM w).1 = .resp 500 (.errBody "PAMClientError" m)) ∧
    (pamClientOk w = true →
      (handleDeleteSafeM w).1 =
        .resp 500 (.errBody "SafeDeletionError"
          "Failed to delete safe: delete safe functionality not implemented in current SDK version")) := by
  unfold handleDeleteSafeM pamClientOk createPAMClientM
  cases henv : validEnvVarsM w.env with
  | some e => simp
  | none =>
    cases href : w.refreshErr 0 with
    | some e =>
      refine ⟨?_, ?_, ?_⟩
      · intro e he
        simp at he
        rcases he with he | he <;> simp [he]
      · simp
      · simp
    | none =>
      refine ⟨?_, ?_, ?_⟩
      · intro e he
        simp at he
        rcases he with he | he <;> simp [he]
      · simp
      · simp

/-- C9 witness: the amended statement applied at a healthy world, where the
outcome is the SafeDeletionError failure. -/
theorem c9_witness :
    (handleDeleteSafeM w9ok).1 =
      .resp 500 (.errBody "SafeDeletionError"
        "Failed to delete safe: delete safe functionality not implemented in current SDK version") :=
  (c9_delete_safe_always_fails w9ok).2.2 (by decide)

/-- C10: for an account create whose body passes validation and whose vault
create succeeds with an ID, but whose instance name has no dot, the vault
AddAccount call is performed (it is in the trace, before anything else after
client construction) and only then does the request fail with a 409
AddAccountError carrying the malformed-name message. -/
theorem c10_vault_called_before_name_parse (w : World) (cp : CustomProviderRequestPath)
    (req : AccountRequestProps)
    (hs : req.safeName ≠ []) (hp : req.platformID ≠ [])
    (henv : validEnvVarsM w.env = none) (hr0 : w.refreshErr 0 = none)
    (hae : w.addAccount.err = none) (hac : w.addAccount.code < 300)
    (hid : w.addAccount.id ≠ [])
    (hnd : '.' ∉ cp.resourceInstanceName) :
    handleCreateAccountM w cp (some req) =
      (.resp 409 (.errBody "AddAccountError"
        "resource name must be in format: {safename}.{accountname}"),
       [Ev.envCheck, Ev.refreshSession, Ev.vaultAddAccount]) := by
  have hparse := parseSafeNameAccountName_of_not_mem _ hnd
  have hclient : createPAMClientM w 0 = (.ok (w.env "PCLOUDURL"), [Ev.envCheck, Ev.refreshSession]) := by
    unfold createPAMClientM
    rw [henv, hr0]
  simp [handleCreateAccountM, addAccountM, hclient, hae, hparse, hs, hp,
    Nat.not_le.mpr hac, hid]

/-- C10 witness: the statement applied at a concrete healthy world and the
dotless instance name. -/
theorem c10_witness :
    handleCreateAccountM c10world cpNoDot (some reqAcct) =
      (.resp 409 (.errBody "AddAccountError"
        "resource name must be in format: {safename}.{accountname}"),
       [Ev.envCheck, Ev.refreshSession, Ev.vaultAddAccount]) :=
  c10_vault_called_before_name_parse c10world cpNoDot reqAcct (by decide) (by decide)
    (by decide) rfl rfl (by decide) (by decide) (by decide)

/-- C4 (counterexample): a vault create that returns no error and status 200
but an empty ID makes the handler fail the request with a 409
AddAccountError and perform no reconciliation poll, contradicting the claim
that it proceeds to reconciliation regardless of the response contents. -/
theorem c4_counterexample :
    c4world.addAccount.err = none ∧ c4world.addAccount.code < 300 ∧
    (handleCreateAccountM c4world cpAccounts (some reqAcct)).1 =
      .resp 409 (.errBody "AddAccountError" "no account id was set in the response") ∧
    (handleCreateAccountM c4world cpAccounts (some reqAcct)).2.count Ev.vaultGetAccounts = 0 := by
  refine ⟨rfl, by decide, by decide, by decide⟩

/-- C4 (amended): after a vault create with no error and a status below 300,
the handler proceeds to the post-create reconciliation only when the create
response carries a non-empty account ID; with an empty ID it fails the
request with the no-account-id error and performs no reconciliation poll. -/
theorem c4_empty_id_fails_before_reconciliation (w : World)
    (cp : CustomProviderRequestPath) (req : AccountRequestProps)
    (hs : req.safeName ≠ []) (hp : req.platformID ≠ [])
    (henv : validEnvVarsM w.env = none) (hr : ∀ k, w.refreshErr k = none)
    (hae : w.addAccount.err = none) (hac : w.addAccount.code < 300) :
    (w.addAccount.id = [] →
      addAccountM w cp (some req) =
        (.fail "no account id was set in the response",
         [Ev.envCheck, Ev.refreshSession, Ev.vaultAddAccount])) ∧
    (w.addAccount.id ≠ [] → '.' ∈ cp.resourceInstanceName →
      Ev.vaultGetAccounts ∈ (addAccountM w cp (some req)).2) := by
  have hclient : ∀ k, createPAMClientM w k = (.ok (w.env "PCLOUDURL"), [Ev.envCheck, Ev.refreshSession]) := by
    intro k
    unfold createPAMClientM
    rw [henv, hr k]
  constructor
  · intro hid
    simp [addAccountM, hclient, hae, hs, hp, Nat.not_le.mpr hac, hid]
  · intro hid hdot
    have hparse := parseSafeNameAccountName_of_mem cp.resourceInstanceName hdot
    have hget2 : (getAccountsM w 1 0).2 = [Ev.envCheck, Ev.refreshSession, Ev.vaultGetAccounts] := by
      unfold getAccountsM
      rw [hclient 1]
      cases hv : (w.getAccountsVault 0).err <;> simp [hv]
    have hmem : Ev.vaultGetAccounts ∈ (reconcileM w).2 := by
      unfold reconcileM
      rcases hg : getAccountsM w 1 0 with ⟨res, evs⟩
      have hevs : evs = [Ev.envCheck, Ev.refreshSession, Ev.vaultGetAccounts] := by
        have h2 := hget2
        rw [hg] at h2
        exact h2
      cases res <;> simp [hevs]
    simp only [addAccountM, hclient, hae, hparse]
    simp [hs, hp, Nat.not_le.mpr hac, hid, hmem]

/-- C4 witness: the amended statement applied at the empty-ID world; the
empty-ID branch yields the failure with no reconciliation. -/
theorem c4_witness :
    addAccountM c4world cpAccounts (some reqAcct) =
      (.fail "no account id was set in the response",
       [Ev.envCheck, Ev.refreshSession, Ev.vaultAddAccount]) :=
  (c4_empty_id_fails_before_reconciliation c4world cpAccounts reqAcct (by decide)
    (by decide) (by decide) (fun _ => rfl) rfl (by decide)).1 rfl

/-- C1: a concrete account create in which the vault AddAccount call
succeeds (no error, status 201, an ID) while every GetAccounts poll returns
an empty result set: the handler makes all four polls with the three delays
and then responds 409 AddAccountError (the not-found error from the final
lookup) instead of the 201 Created the claim states. -/
theorem c1_create_fails_when_account_never_observed :
    c1world.addAccount.err = none ∧ c1world.addAccount.code < 300 ∧
    (handleCreateAccountM c1world cpAccounts (some reqAcct)).2.count Ev.vaultGetAccounts = 4 ∧
    (handleCreateAccountM c1world cpAccounts (some reqAcct)).2.count Ev.sleep2s = 3 ∧
    (handleCreateAccountM c1world cpAccounts (some reqAcct)).1 =
      .resp 409 (.errBody "AddAccountError" "account name, acct1, not found") := by
  refine ⟨rfl, by decide, by decide, by decide, by decide⟩

/-- One unrolling step of the reconciliation retry loop. -/
theorem pollLoopM_step (w : World) (kc kv fuel : Nat) (o : Option GetAccountsValue) :
    pollLoopM w kc kv (fuel + 1) o =
      match getAccountsM w kc kv with
      | (.error _, evs) => (.crashed, .sleep2s :: evs)
      | (.ok o2, evs) =>
        if pollSat o2 then (.ok o2, .sleep2s :: evs)
        else ((pollLoopM w (kc + 1) (kv + 1) fuel o2).1,
          .sleep2s :: evs ++ (pollLoopM w (kc + 1) (kv + 1) fuel o2).2) := rfl

/-- C3 (counterexample): a concrete create in which the initial
reconciliation poll already returns a non-empty result set, yet the handler
still sleeps once and polls a second time — the claim says a non-empty
initial poll is followed by no delay and no further poll. -/
theorem c3_counterexample :
    pollNE c3world 0 = true ∧
    (handleCreateAccountM c3world cpAccounts (some reqAcct)).2.count Ev.sleep2s = 1 ∧
    (handleCreateAccountM c3world cpAccounts (some reqAcct)).2.count Ev.vaultGetAccounts = 2 := by
  refine ⟨rfl, by decide, by decide⟩

/-- C3 (amended): after a successful vault create, the handler issues one
initial GetAccounts poll and then always performs at least one 2-second
delayed retry poll without consulting the initial result; it performs up to
3 delayed retries, stopping early as soon as a retry observes a non-empty
result (the early-stop condition inspects only the retry polls). -/
theorem c3_retry_loop_always_delays_once (w : World) (cp : CustomProviderRequestPath)
    (req : AccountRequestProps)
    (hs : req.safeName ≠ []) (hp : req.platformID ≠ [])
    (henv : validEnvVarsM w.env = none) (hr : ∀ k, w.refreshErr k = none)
    (hae : w.addAccount.err = none) (hac : w.addAccount.code < 300)
    (hid : w.addAccount.id ≠ [])
    (hdot : '.' ∈ cp.resourceInstanceName)
    (hv : ∀ i, (w.getAccountsVault i).err = none) :
    ((addAccountM w cp (some req)).2.count Ev.sleep2s = retryCount w) ∧
    ((addAccountM w cp (some req)).2.count Ev.vaultGetAccounts = 1 + retryCount w) ∧
    1 ≤ retryCount w ∧ retryCount w ≤ 3 ∧
    (∀ j, 1 ≤ j → j < retryCount w → pollNE w j = false) ∧
    (pollNE w (retryCount w) = true ∨ retryCount w = 3) := by
  have hclient : ∀ k, createPAMClientM w k =
      (.ok (w.env "PCLOUDURL"), [Ev.envCheck, Ev.refreshSession]) := by
    intro k
    unfold createPAMClientM
    rw [henv, hr k]
  have hget : ∀ kc kv, getAccountsM w kc kv =
      (.ok (w.getAccountsVault kv).resp,
        [Ev.envCheck, Ev.refreshSession, Ev.vaultGetAccounts]) := by
    intro kc kv
    unfold getAccountsM
    rw [hclient kc, hv kv]
    rfl
  have hparse := parseSafeNameAccountName_of_mem cp.resourceInstanceName hdot
  have htrace : (addAccountM w cp (some req)).2 =
      [Ev.envCheck, Ev.refreshSession, Ev.vaultAddAccount, Ev.envCheck, Ev.refreshSession,
        Ev.vaultGetAccounts] ++ (pollLoopM w 2 1 3 (w.getAccountsVault 0).resp).2 := by
    simp [addAccountM, reconcileM, hclient, hget, hae, hparse, hs, hp,
      Nat.not_le.mpr hac, hid]
  by_cases h1 : pollNE w 1 = true
  · have hloop : (pollLoopM w 2 1 3 (w.getAccountsVault 0).resp).2 =
        [Ev.sleep2s, Ev.envCheck, Ev.refreshSession, Ev.vaultGetAccounts] := by
      rw [pollLoopM_step, hget 2 1]
      unfold pollNE at h1
      simp [h1]
    have hrc : retryCount w = 1 := by simp [retryCount, h1]
    rw [htrace, hloop, hrc]
    refine ⟨by decide, by decide, by decide, by decide, ?_, ?_⟩
    · intro j hj hlt
      omega
    · exact Or.inl h1
  · simp only [Bool.not_eq_true] at h1
    by_cases h2 : pollNE w 2 = true
    · have hloop : (pollLoopM w 2 1 3 (w.getAccountsVault 0).resp).2 =
          [Ev.sleep2s, Ev.envCheck, Ev.refreshSession, Ev.vaultGetAccounts,
           Ev.sleep2s, Ev.envCheck, Ev.refreshSession, Ev.vaultGetAccounts] := by
        rw [pollLoopM_step, hget 2 1]
        have h1p : pollSat (w.getAccountsVault 1).resp = false := h1
        simp only [h1p]
        rw [pollLoopM_step, hget 3 2]
        unfold pollNE at h2
        simp [h2]
      have hrc : retryCount w = 2 := by simp [retryCount, h1, h2]
      rw [htrace, hloop, hrc]
      refine ⟨by decide, by decide, by decide, by decide, ?_, ?_⟩
      · intro j hj hlt
        have : j = 1 := by omega
        subst this
        exact h1
      · exact Or.inl h2
    · simp only [Bool.not_eq_true] at h2
      have hloop : (pollLoopM w 2 1 3 (w.getAccountsVault 0).resp).2 =
          [Ev.sleep2s, Ev.envCheck, Ev.refreshSession, Ev.vaultGetAccounts,
           Ev.sleep2s, Ev.envCheck, Ev.refreshSession, Ev.vaultGetAccounts,
           Ev.sleep2s, Ev.envCheck, Ev.refreshSession, Ev.vaultGetAccounts] := by
        rw [pollLoopM_step, hget 2 1]
        have h1p : pollSat (w.getAccountsVault 1).resp = false := h1
        simp only [h1p]
        rw [pollLoopM_step, hget 3 2]
        have h2p : pollSat (w.getAccountsVault 2).resp = false := h2
        simp only [h2p]
        rw [pollLoopM_step, hget 4 3]
        by_cases h3 : pollSat (w.getAccountsVault 3).resp = true
        · simp [h3]
        · simp only [Bool.not_eq_true] at h3
          simp [h3, pollLoopM]
      have hrc : retryCount w = 3 := by simp [retryCount, h1, h2]
      rw [htrace, hloop, hrc]
      refine ⟨by decide, by decide, by decide, by decide, ?_, Or.inr rfl⟩
      intro j hj hlt
      rcases (by omega : j = 1 ∨ j = 2) with hj1 | hj2
      · subst hj1; exact h1
      · subst hj2; exact h2

/-- C3 witness: the amended statement applied at a world whose polls are all
empty, where all three delayed retries occur. -/
theorem c3_witness :
    ((addAccountM c1world cpAccounts (some reqAcct)).2.count Ev.sleep2s = retryCount c1world) ∧
    ((addAccountM c1world cpAccounts (some reqAcct)).2.count Ev.vaultGetAccounts =
      1 + retryCount c1world) := by
  have h := c3_retry_loop_always_delays_once c1world cpAccounts reqAcct (by decide)
    (by decide) (by decide) (fun _ => rfl) rfl (by decide) (by decide) (by decide)
    (fun _ => rfl)
  exact ⟨h.1, h.2.1⟩

end AzureCP
